import Mathlib

/-!
Verification of the powerwall credential-lifecycle / device-control program
(`cmd/obsolete-local-api` main program). The Go source is shallowly embedded:
pure string/list manipulation is translated directly; HTTP, file-system and
clock effects are passed in explicitly as oracle values describing the outcome
of each outbound call, and `log.Fatalf` / runtime panics become explicit
constructors of `RunResult`.
-/

namespace Powerwall

/-- Outcome of running a piece of the program: `fatal` models `log.Fatalf`
(process terminates with a message), `crashed` models a Go runtime panic
(process also terminates), `ok` is normal completion. -/
inductive RunResult (α : Type) where
  | fatal (msg : String)
  | crashed (msg : String)
  | ok (a : α)
deriving DecidableEq

/-- Node type of the `golang.org/x/net/html` tree; only `ElementNode` matters
to the embedded code, everything else is `other`. -/
inductive NodeType where
  | element
  | other
deriving DecidableEq, BEq

/-- An HTML node: type, tag name (`Data`), attribute list (`Attr`, in document
order) and child list (`FirstChild`/`NextSibling` chain). -/
inductive HNode where
  | mk (ntype : NodeType) (data : String) (attrs : List (String × String))
      (children : List HNode)

def HNode.ntype : HNode → NodeType
  | .mk t _ _ _ => t

def HNode.data : HNode → String
  | .mk _ d _ _ => d

def HNode.attrs : HNode → List (String × String)
  | .mk _ _ a _ => a

def HNode.children : HNode → List HNode
  | .mk _ _ _ c => c

/-- `url.Values.Set`: replaces any existing values for the key. `url.Values`
is modelled as an association list with unique keys; the observable behaviour
(lookup, sorted encoding) matches Go's unordered map. -/
def valuesSet (l : List (String × String)) (k v : String) : List (String × String) :=
  l.filter (fun p => p.1 != k) ++ [(k, v)]

/-- Lookup in a `url.Values` model (first value for the key). -/
def valuesGet (l : List (String × String)) (k : String) : Option String :=
  (l.find? (fun p => p.1 == k)).map (fun p => p.2)

/-- The attribute scan inside `GetHiddenFormInputs` (lines 103-115): walks the
attribute list with `name`/`value` accumulators initialised to the sentinel
`"INVALID"`, stopping (`break`) at the first `type` attribute whose value is
not `hidden`; a `name`/`value` attribute overwrites the accumulator. -/
def scanAttrs : List (String × String) → String → String → String × String
  | [], name, value => (name, value)
  | a :: rest, name, value =>
    if a.1 == "type" && a.2 != "hidden" then (name, value)
    else scanAttrs rest (if a.1 == "name" then a.2 else name)
      (if a.1 == "value" then a.2 else value)

/-- `GetHiddenFormInputs` (lines 99-123): over the direct children of the form
node, for each `input` element run the attribute scan; if both accumulators
were set (left the sentinel), `fields.Set(name, value)`. -/
def GetHiddenFormInputs (n : HNode) : List (String × String) :=
  n.children.foldl
    (fun fields c =>
      if c.ntype == NodeType.element && c.data == "input" then
        let nv := scanAttrs c.attrs "INVALID" "INVALID"
        if nv.1 != "INVALID" && nv.2 != "INVALID" then valuesSet fields nv.1 nv.2
        else fields
      else fields)
    []

/-- An attribute survives the scan iff it is not a `type` attribute with a
value other than `hidden` (the scan stops at the first such attribute). -/
def keepAttr (x : String × String) : Bool :=
  !(x.1 == "type" && x.2 != "hidden")

/-- The value of a `name` attribute, for collecting. -/
def fName (x : String × String) : Option String :=
  if x.1 == "name" then some x.2 else none

/-- The value of a `value` attribute, for collecting. -/
def fValue (x : String × String) : Option String :=
  if x.1 == "value" then some x.2 else none

/-- The contribution of one input as the amended specification words it: the
input contributes a pair exactly when both a `name` and a `value` attribute
occur before any `type` attribute whose value is not `hidden` AND neither the
last such name nor the last such value is the literal sentinel string
`INVALID` (the program's in-band marker for an absent attribute, which makes
it drop such inputs); the contributed pair is the last name and last value so
occurring, taken literally (the empty string included). -/
def scanSpec (attrs : List (String × String)) : Option (String × String) :=
  match ((attrs.takeWhile keepAttr).filterMap fName).getLast?,
      ((attrs.takeWhile keepAttr).filterMap fValue).getLast? with
  | some n, some v =>
    if n != "INVALID" && v != "INVALID" then some (n, v) else none
  | _, _ => none

/-- Hidden-field extraction as the amended specification words it, built from
`scanSpec` instead of the source's imperative loop: each input child either
contributes its `scanSpec` pair or nothing. -/
def specHiddenExtract (n : HNode) : List (String × String) :=
  n.children.foldl
    (fun fields c =>
      if c.ntype == NodeType.element && c.data == "input" then
        match scanSpec c.attrs with
        | some nv => valuesSet fields nv.1 nv.2
        | none => fields
      else fields)
    []

/-- Upper-case hex digit, for percent-escaping. -/
def hexDigit (n : Nat) : Char :=
  if n < 10 then Char.ofNat (48 + n) else Char.ofNat (55 + n)

/-- Go's `url.QueryEscape` on one character: unreserved characters kept,
space becomes `+`, anything else percent-encoded. -/
def queryEscapeChar (c : Char) : String :=
  if c.isAlphanum || c == '-' || c == '_' || c == '.' || c == '~' then
    String.singleton c
  else if c == ' ' then "+"
  else "%" ++ String.singleton (hexDigit (c.toNat / 16)) ++
    String.singleton (hexDigit (c.toNat % 16))

def queryEscape (s : String) : String :=
  String.join (s.toList.map queryEscapeChar)

/-- Byte-wise lexicographic order on character lists (Go's string order for
ASCII data). -/
def charListLe : List Char → List Char → Bool
  | [], _ => true
  | _ :: _, [] => false
  | a :: as, b :: bs =>
    if a.toNat < b.toNat then true
    else if b.toNat < a.toNat then false
    else charListLe as bs

def strLe (s t : String) : Bool :=
  charListLe s.toList t.toList

def insertByKey (p : String × String) : List (String × String) → List (String × String)
  | [] => [p]
  | q :: rest => if strLe p.1 q.1 then p :: q :: rest else q :: insertByKey p rest

def sortByKey (l : List (String × String)) : List (String × String) :=
  l.foldr insertByKey []

/-- `url.Values.Encode`: keys sorted, each pair percent-escaped and joined
with `&`. -/
def valuesEncode (l : List (String × String)) : String :=
  String.intercalate "&"
    ((sortByKey l).map fun p => queryEscape p.1 ++ "=" ++ queryEscape p.2)

/-- An outbound HTTP request as the embedded code builds it. -/
structure HttpRequest where
  method : String
  url : String
  headers : List (String × String)
  body : String
deriving DecidableEq

/-- The exact string `json.Marshal` produces (keys sorted) for the step-4 map
at lines 243-247: grant type `jwt-bearer` with the fixed client id/secret. -/
def jwtBearerJSON : String :=
  "\x7b\"client_id\":\"81527cff06843c8634fdc09e8ac0abefb46ac849f38fe1e431c2ef2106796384\",\"client_secret\":\"c7257eb71a564034f9419ee651c7d0e5f7aa6bfbd18bafb5c5c033b093bb2fa3\",\"grant_type\":\"urn:ietf:params:oauth:grant-type:jwt-bearer\"\x7d"

/-- The step-4 request as built at lines 252-256: the body passed to
`http.NewRequest` is `fields.Encode()` — the url-encoded login form fields —
while `Content-Length` is set from `len(js)`, the marshalled JSON's length. -/
def step4Request (fields : List (String × String)) (accessToken : String) : HttpRequest :=
  { method := "POST"
    url := "https://owner-api.teslamotors.com/oauth/token"
    headers := [("Content-Type", "application/json"),
                ("Content-Length", toString jwtBearerJSON.length),
                ("Authorization", "Bearer " ++ accessToken)]
    body := valuesEncode fields }

/-- Outcomes of the outbound calls made inside `GetOAuthTokenFromTesla`.
`loginPageOk` is the step-1 `http.Get`; `hiddenFields` the fields extracted
from the returned page; `postOk` the step-2 login POST; `redirectQuery` the
parsed query pairs of the redirect `Location`; `token1` the combined outcome
of the step-3 POST, JSON decode and `access_token` type assertion; `token2`
likewise for step 4, as a function of the request sent. -/
structure AuthOracle where
  loginPageOk : Bool
  hiddenFields : List (String × String)
  postOk : Bool
  redirectQuery : List (String × String)
  token1 : RunResult String
  token2 : HttpRequest → RunResult String

/-- `GetOAuthTokenFromTesla` (lines 127-272). Every network or decode error
is `log.Fatalf` (fatal). The `code` extraction at line 210 indexes
`query["code"][0]`: when the query holds no `code` key the slice is empty and
the index panics (`crashed`), there is no error return. -/
def GetOAuthTokenFromTesla (username password : String) (o : AuthOracle) :
    RunResult String :=
  if !o.loginPageOk then .fatal "GET"
  else
    let fields := valuesSet (valuesSet o.hiddenFields "identity" username)
      "credential" password
    if !o.postOk then .fatal "POST"
    else
      match (o.redirectQuery.filterMap fun q =>
          if q.1 == "code" then some q.2 else none).head? with
      | none => .crashed "index out of range"
      | some _code =>
        match o.token1 with
        | .fatal m => .fatal m
        | .crashed m => .crashed m
        | .ok accessToken =>
          match o.token2 (step4Request fields accessToken) with
          | .fatal m => .fatal m
          | .crashed m => .crashed m
          | .ok t => .ok t

/-- One file's content and modification time; time is measured in hours. -/
structure FileData where
  content : String
  mtime : Nat
deriving DecidableEq

/-- The credential store directory: the final `tesla_bearer_token` file and
the sibling `tesla_bearer_token.new` temporary. -/
structure FS where
  final : Option FileData
  tmp : Option FileData
deriving DecidableEq

/-- `WriteOAuthTokenToFile` (lines 293-310): write the token to the `.new`
sibling, then rename it over the final path; on failure of either step the
`.new` file is removed (`os.Remove`) and the error returned. `writeOk` and
`renameOk` are the outcomes of `ioutil.WriteFile` and `os.Rename`; the
returned Bool is `err == nil`. -/
def WriteOAuthTokenToFile (token : String) (now : Nat) (fs : FS)
    (writeOk renameOk : Bool) : FS × Bool :=
  if writeOk then
    if renameOk then ({ final := some ⟨token, now⟩, tmp := none }, true)
    else ({ final := fs.final, tmp := none }, false)
  else ({ final := fs.final, tmp := none }, false)

/-- `GetOAuthTokenFromFile` (lines 274-291): read the file (absent or
unreadable gives `("", 0)`), age = whole days between the file's mtime and
now (`now.Sub(mt).Hours() / 24`, truncated). -/
def GetOAuthTokenFromFile (fs : FS) (now : Nat) : String × Nat :=
  match fs.final with
  | none => ("", 0)
  | some fd => (fd.content, (now - fd.mtime) / 24)

/-- One product element of the `/api/1/products` response, reduced to what
the scan at lines 343-353 inspects: `none` = no `energy_site_id` key;
`some none` = key present but `json.Number.Int64()` fails;
`some (some k)` = key present with integer value `k`. -/
abbrev Product := Option (Option Int)

/-- The loop at lines 343-353: first successful `Int64()` conversion wins
(`break`); a failed conversion overwrites `energy_site_id` with 0 and the
scan continues; if nothing matches the accumulator (initially 0) remains. -/
def scanProducts : List Product → Int → Int
  | [], acc => acc
  | none :: rest, acc => scanProducts rest acc
  | some none :: rest, _ => scanProducts rest 0
  | some (some k) :: _, _ => k

/-- `GetEnergySiteId` (lines 312-355), given the outcome of the products GET:
network failure or a non-2xx status yields `(0, false)`; otherwise the
product scan runs and the function returns `(id, true)` — unconditionally
`true`, whether or not any product carried an energy-site id. -/
def GetEnergySiteId (netOk : Bool) (status : Nat) (products : List Product) :
    Int × Bool :=
  if !netOk then (0, false)
  else if status < 200 || 300 ≤ status then (0, false)
  else (scanProducts products 0, true)

/-- Events observable in the credential-acquisition phase of `main`:
probing a token via `GetEnergySiteId`, re-authenticating via
`GetOAuthTokenFromTesla`, attempting `WriteOAuthTokenToFile`. -/
inductive Event where
  | probeCall (token : String)
  | reauth
  | writeFile (token : String)
deriving DecidableEq

/-- Outcomes of the calls `main` makes: the stored credential and its age as
loaded by `GetOAuthTokenFromFile`, the per-token result of `GetEnergySiteId`,
the oracle for `GetOAuthTokenFromTesla`, and the save outcome. -/
structure MainOracle where
  storedToken : String
  storedAge : Int
  probe : String → Int × Bool
  auth : AuthOracle
  username : String
  password : String
  writeOk : Bool

/-- The credential-acquisition logic of `main` (lines 489-517), returning the
(token, energy_site_id) pair used for the device calls — or the fatal
outcome — together with the trace of calls made. Faithful details: in the
refresh branch `energy_site_id, ok = GetEnergySiteId(new_token)` reassigns
the site id even when the new token's probe fails, and both
`WriteOAuthTokenToFile` error checks are `log.Fatalf`. -/
def mainModel (o : MainOracle) : RunResult (String × Int) × List Event :=
  let token := o.storedToken
  let p := o.probe token
  if p.2 then
    if 45 - o.storedAge < 7 then
      match GetOAuthTokenFromTesla o.username o.password o.auth with
      | .fatal m => (.fatal m, [.probeCall token, .reauth])
      | .crashed m => (.crashed m, [.probeCall token, .reauth])
      | .ok newToken =>
        let p2 := o.probe newToken
        if p2.2 then
          if o.writeOk then
            (.ok (newToken, p2.1),
             [.probeCall token, .reauth, .probeCall newToken, .writeFile newToken])
          else
            (.fatal "WriteOAuthTokenToFile",
             [.probeCall token, .reauth, .probeCall newToken, .writeFile newToken])
        else
          (.ok (token, p2.1), [.probeCall token, .reauth, .probeCall newToken])
    else (.ok (token, p.1), [.probeCall token])
  else
    match GetOAuthTokenFromTesla o.username o.password o.auth with
    | .fatal m => (.fatal m, [.probeCall token, .reauth])
    | .crashed m => (.crashed m, [.probeCall token, .reauth])
    | .ok newToken =>
      let p2 := o.probe newToken
      if p2.2 then
        if o.writeOk then
          (.ok (newToken, p2.1),
           [.probeCall token, .reauth, .probeCall newToken, .writeFile newToken])
        else
          (.fatal "WriteOAuthTokenToFile",
           [.probeCall token, .reauth, .probeCall newToken, .writeFile newToken])
      else
        (.fatal "Unable to obtain useable Bearer token",
         [.probeCall token, .reauth, .probeCall newToken])

/-- A device call issued by the command-execution phase of `main`. -/
inductive DeviceCall where
  | setSelfConsumption (sid : Int)
  | setBackupPercent (sid : Int) (p : Rat)
  | getBatteryCharge (sid : Int)
deriving DecidableEq

/-- The command-execution phase of `main` (lines 519-529): `--percent` takes
precedence, then `--hold`, else query. `charge` is the value
`GetBatteryCharge` returns when called. -/
def runCommand (hold : Bool) (percent : Int) (sid : Int) (charge : Rat) :
    List DeviceCall :=
  if 0 ≤ percent then
    [.setSelfConsumption sid, .setBackupPercent sid (percent : Rat)]
  else if hold then
    [.setSelfConsumption sid, .getBatteryCharge sid, .setBackupPercent sid charge]
  else [.getBatteryCharge sid]

/-- A form node whose single input lists its attributes in the order
`name`, `value`, `type=text`. -/
def cexFormNode : HNode :=
  .mk .element "form" [("class", "sso-form sign-in-form")]
    [.mk .element "input" [("name", "n"), ("value", "v"), ("type", "text")] []]

/-- A form node whose single input is a hidden field whose value is the
literal string `INVALID` — colliding with the program's sentinel. -/
def sentinelFormNode : HNode :=
  .mk .element "form" [("class", "sso-form sign-in-form")]
    [.mk .element "input"
      [("type", "hidden"), ("name", "status"), ("value", "INVALID")] []]

/-- An auth oracle whose redirect query carries no `code` parameter. -/
def cexAuthOracle : AuthOracle :=
  { loginPageOk := true
    hiddenFields := [("transaction_id", "qoqqxdxw")]
    postOk := true
    redirectQuery := [("state", "xyz")]
    token1 := .ok "T1"
    token2 := fun _ => .ok "T2" }

/-- Login form fields as built at lines 173-184 from a page with one hidden
field, after `identity`/`credential` are set. -/
def cexLoginFields : List (String × String) :=
  valuesSet (valuesSet [("transaction_id", "qoqqxdxw")] "identity" "user1")
    "credential" "hunter2"

/-- An auth oracle for a fully successful re-authentication yielding `NEW`. -/
def okAuthOracle : AuthOracle :=
  { loginPageOk := true
    hiddenFields := [("transaction_id", "qoqqxdxw")]
    postOk := true
    redirectQuery := [("code", "abc")]
    token1 := .ok "T1"
    token2 := fun _ => .ok "NEW" }

/-- Aging stored credential (probe succeeds, age 40) with a network error on
the refresh's initial GET. -/
def cexOracleC1 : MainOracle :=
  { storedToken := "OLD"
    storedAge := 40
    probe := fun t => if t == "OLD" then (5, true) else (0, false)
    auth := { loginPageOk := false, hiddenFields := [], postOk := true,
              redirectQuery := [], token1 := .ok "T1", token2 := fun _ => .ok "T2" }
    username := "u"
    password := "p"
    writeOk := true }

/-- Aging stored credential (probe succeeds, age 44), successful refresh to
`NEW` whose probe also succeeds, but the save fails. -/
def cexOracleC2 : MainOracle :=
  { storedToken := "OLD"
    storedAge := 44
    probe := fun _ => (5, true)
    auth := okAuthOracle
    username := "u"
    password := "p"
    writeOk := false }

/-- Absent stored credential: forced re-authentication succeeds with `NEW`,
its probe succeeds, but the save fails. -/
def cexOracleC2w : MainOracle :=
  { storedToken := ""
    storedAge := 0
    probe := fun t => if t == "NEW" then (5, true) else (0, false)
    auth := okAuthOracle
    username := "u"
    password := "p"
    writeOk := false }

/-- Fresh stored credential: probe succeeds, age 3. -/
def cexOracleC9 : MainOracle :=
  { storedToken := "OLD"
    storedAge := 3
    probe := fun t => if t == "OLD" then (7, true) else (0, false)
    auth := okAuthOracle
    username := "u"
    password := "p"
    writeOk := true }

theorem scanProducts_all_none (l : List Product) (h : ∀ p ∈ l, p = none)
    (acc : Int) : scanProducts l acc = acc := by
  induction l with
  | nil => rfl
  | cons p rest ih =>
    have hp : p = none := h p (List.mem_cons_self p rest)
    subst hp
    exact ih fun q hq => h q (List.mem_cons_of_mem _ hq)

theorem scanAttrs_eq_scanSpec (attrs : List (String × String))
    (name value : String) :
    scanAttrs attrs name value =
      (((attrs.takeWhile keepAttr).filterMap fName).getLastD name,
       ((attrs.takeWhile keepAttr).filterMap fValue).getLastD value) := by
  induction attrs generalizing name value with
  | nil => rfl
  | cons a rest ih =>
    simp only [scanAttrs]
    cases hb : (a.1 == "type" && a.2 != "hidden") with
    | true =>
      have hk : keepAttr a = false := by simp [keepAttr, hb]
      rw [if_pos rfl, List.takeWhile_cons, hk]
      simp
    | false =>
      have hk : keepAttr a = true := by simp [keepAttr, hb]
      rw [if_neg Bool.false_ne_true, ih, List.takeWhile_cons, hk, if_pos rfl]
      cases hn : (a.1 == "name") with
      | true =>
        have hv : (a.1 == "value") = false := by
          have h1 : a.1 = "name" := by simpa using hn
          simp [h1]
        have e1 : fName a = some a.2 := by simp [fName, hn]
        have e2 : fValue a = none := by simp [fValue, hv]
        rw [List.filterMap_cons_some e1, List.filterMap_cons_none e2,
          List.getLastD_cons, if_pos rfl,
          if_neg (show ¬((a.1 == "value") = true) by simp [hv])]
      | false =>
        cases hv : (a.1 == "value") with
        | true =>
          have e1 : fName a = none := by simp [fName, hn]
          have e2 : fValue a = some a.2 := by simp [fValue, hv]
          rw [List.filterMap_cons_none e1, List.filterMap_cons_some e2,
            List.getLastD_cons, if_neg Bool.false_ne_true, if_pos rfl]
        | false =>
          have e1 : fName a = none := by simp [fName, hn]
          have e2 : fValue a = none := by simp [fValue, hv]
          rw [List.filterMap_cons_none e1, List.filterMap_cons_none e2,
            if_neg Bool.false_ne_true, if_neg Bool.false_ne_true]

/-- C3 counterexample: a successful 2xx product-list response with no element
exposing an energy-site id makes `GetEnergySiteId` return `(0, true)` — the
`ok` flag is `true`, contradicting the claim that it is `false`. -/
theorem GetEnergySiteId_no_site_cex :
    GetEnergySiteId true 200 [none, none] = (0, true) := by decide

/-- C3 (amended): `GetEnergySiteId` returns `ok = false` only on a network
failure or a non-2xx status; for every successful 2xx response in which no
element exposes an energy-site identifier it returns id 0 with `ok = true`,
so the run proceeds with site id 0 instead of failing. -/
theorem GetEnergySiteId_no_site_ok_true (status : Nat) (products : List Product)
    (h200 : 200 ≤ status) (h300 : status < 300)
    (hnone : ∀ p ∈ products, p = none) :
    GetEnergySiteId true status products = (0, true) := by
  have h1 : ¬(status < 200 ∨ 300 ≤ status) := by omega
  simp [GetEnergySiteId, h1, scanProducts_all_none products hnone]

theorem GetEnergySiteId_no_site_ok_true_witness :
    GetEnergySiteId true 250 [none] = (0, true) :=
  GetEnergySiteId_no_site_ok_true 250 [none] (by decide) (by decide)
    (by intro p hp; simpa using hp)

/-- C5 counterexample: two refutations of the claimed extraction. First, an
input whose attributes come in the order `name`, `value`, `type=text` is
included by `GetHiddenFormInputs` even though its `type` attribute is not
`hidden` — exclusion is not order-independent. Second, a hidden input whose
value is the literal string `INVALID` is excluded, so the extraction does not
return every hidden field with its value preserved. -/
theorem GetHiddenFormInputs_extraction_cex :
    GetHiddenFormInputs cexFormNode = [("n", "v")] ∧
    GetHiddenFormInputs sentinelFormNode = [] := by decide

theorem scan_branch_eq (attrs fields : List (String × String)) :
    (if (scanAttrs attrs "INVALID" "INVALID").1 != "INVALID" &&
        (scanAttrs attrs "INVALID" "INVALID").2 != "INVALID" then
      valuesSet fields (scanAttrs attrs "INVALID" "INVALID").1
        (scanAttrs attrs "INVALID" "INVALID").2
    else fields)
      = match scanSpec attrs with
        | some nv => valuesSet fields nv.1 nv.2
        | none => fields := by
  rw [scanAttrs_eq_scanSpec]
  simp only [scanSpec, List.getLastD_eq_getLast?]
  cases hn : ((attrs.takeWhile keepAttr).filterMap fName).getLast? with
  | none => simp
  | some n =>
    cases hv : ((attrs.takeWhile keepAttr).filterMap fValue).getLast? with
    | none => simp
    | some v =>
      simp only [Option.getD_some]
      cases hnv : (n != "INVALID" && v != "INVALID") with
      | true => simp
      | false => simp

/-- C5 (amended): `GetHiddenFormInputs` returns exactly the pairs produced by
a left-to-right scan of each input child's attributes that stops at the first
`type` attribute whose value is not `hidden`: an input contributes its last
`name`/`value` attribute values iff both a `name` and a `value` attribute
occur before any non-hidden `type` attribute and neither resulting value is
the literal sentinel string `INVALID` (which the program cannot distinguish
from an absent attribute, so such inputs are dropped); contributed values are
otherwise taken literally, the empty string included. A `type` attribute is
not required, so a non-hidden input whose `type` attribute follows `name` and
`value`, or an input with no `type` attribute at all, is included. -/
theorem GetHiddenFormInputs_matches_spec (n : HNode) :
    GetHiddenFormInputs n = specHiddenExtract n := by
  simp only [GetHiddenFormInputs, specHiddenExtract]
  congr 1
  funext fields c
  cases hc : (c.ntype == NodeType.element && c.data == "input") with
  | true => simpa using scan_branch_eq c.attrs fields
  | false => simp

/-- C4 counterexample: with a redirect whose query is `state=xyz` (no `code`
parameter) the authentication flow crashes with an index-out-of-range panic
instead of producing a handled error result. -/
theorem missing_code_crashes_cex :
    GetOAuthTokenFromTesla "u" "p" cexAuthOracle
      = .crashed "index out of range" := by decide

/-- C4 (amended): for every login-POST redirect whose Location query string
contains no `code` parameter, `GetOAuthTokenFromTesla` crashes with the
index-out-of-range panic of `query["code"][0]`; the process terminates, but
no explicit AuthError result is produced. -/
theorem missing_code_crashes (u p : String) (o : AuthOracle)
    (h1 : o.loginPageOk = true) (h2 : o.postOk = true)
    (h3 : ∀ q ∈ o.redirectQuery, q.1 ≠ "code") :
    GetOAuthTokenFromTesla u p o = .crashed "index out of range" := by
  have hfm : (o.redirectQuery.filterMap fun q =>
      if q.1 == "code" then some q.2 else none) = [] := by
    rw [List.filterMap_eq_nil_iff]
    intro q hq
    simp [h3 q hq]
  unfold GetOAuthTokenFromTesla
  rw [h1, h2, hfm]
  simp

theorem missing_code_crashes_witness :
    GetOAuthTokenFromTesla "u2" "p2" cexAuthOracle
      = .crashed "index out of range" :=
  missing_code_crashes "u2" "p2" cexAuthOracle rfl rfl (by decide)

set_option maxRecDepth 4000 in
/-- C6: in the step-4 token exchange the request carries an
`Authorization: Bearer` header with the first-stage token and a
`Content-Length` computed from the marshalled jwt-bearer JSON, but its body
is the url-encoded login form fields — not that JSON (the two do not even
have the same length), contradicting the claim that the POST body is the
jwt-bearer JSON. -/
theorem step4_body_is_login_form_not_json :
    (step4Request cexLoginFields "TOK").body
        = "credential=hunter2&identity=user1&transaction_id=qoqqxdxw" ∧
    (step4Request cexLoginFields "TOK").body ≠ jwtBearerJSON ∧
    (step4Request cexLoginFields "TOK").body.length ≠ jwtBearerJSON.length ∧
    (step4Request cexLoginFields "TOK").headers.contains
        ("Content-Length", toString jwtBearerJSON.length) = true ∧
    (step4Request cexLoginFields "TOK").headers.contains
        ("Authorization", "Bearer TOK") = true := by
  refine ⟨by decide, by decide, by decide, by decide, by decide⟩

/-- C1: when the stored credential passes the probe but is inside the refresh
margin (45 - age < 7), a network error on the refresh's initial GET makes the
whole run terminate fatally (`log.Fatalf("GET: ...")`) — the still-valid old
credential is NOT used, contrary to the claim and to the code's own comment
that a failed refresh sticks with the existing token. -/
theorem refresh_network_error_fatal (o : MainOracle)
    (hprobe : (o.probe o.storedToken).2 = true)
    (hage : 45 - o.storedAge < 7)
    (hnet : o.auth.loginPageOk = false) :
    (mainModel o).1 = .fatal "GET" := by
  have hauth : GetOAuthTokenFromTesla o.username o.password o.auth
      = .fatal "GET" := by
    simp [GetOAuthTokenFromTesla, hnet]
  simp [mainModel, hprobe, hage, hauth]

theorem refresh_network_error_fatal_witness :
    (mainModel cexOracleC1).1 = .fatal "GET" :=
  refresh_network_error_fatal cexOracleC1 (by decide) (by decide) rfl

/-- C2 counterexample: aging credential, successful refresh to `NEW`, probe of
`NEW` succeeds, but the save fails — the run ends with
`log.Fatalf("WriteOAuthTokenToFile: ...")` instead of continuing with the
in-memory credential. -/
theorem save_failure_aborts_cex :
    (mainModel cexOracleC2).1 = .fatal "WriteOAuthTokenToFile" := by decide

/-- C2 (amended): whenever `main` reaches a `WriteOAuthTokenToFile` call (a
forced re-authentication, or a proactive refresh whose new token passes the
probe) and the save fails, the process aborts via `log.Fatalf`; the in-memory
credential is not used for the remainder of the run. -/
theorem save_failure_fatal (o : MainOracle) (t : String)
    (hbranch : (o.probe o.storedToken).2 = false ∨
      ((o.probe o.storedToken).2 = true ∧ 45 - o.storedAge < 7))
    (hauth : GetOAuthTokenFromTesla o.username o.password o.auth = .ok t)
    (hp2 : (o.probe t).2 = true)
    (hw : o.writeOk = false) :
    (mainModel o).1 = .fatal "WriteOAuthTokenToFile" := by
  rcases hbranch with h | ⟨h1, h2⟩
  · simp [mainModel, h, hauth, hp2, hw]
  · simp [mainModel, h1, h2, hauth, hp2, hw]

theorem save_failure_fatal_witness :
    (mainModel cexOracleC2w).1 = .fatal "WriteOAuthTokenToFile" :=
  save_failure_fatal cexOracleC2w "NEW" (Or.inl (by decide)) (by decide)
    (by decide) rfl

/-- C9: when the stored credential passes the probe and its remaining
lifetime satisfies 45 - age >= 7 days, `main` makes no re-authentication
attempt and uses the stored credential and probed site id as-is: the whole
credential phase is exactly one probe call. -/
theorem fresh_credential_no_reauth (o : MainOracle)
    (hprobe : (o.probe o.storedToken).2 = true)
    (hage : 7 ≤ 45 - o.storedAge) :
    mainModel o = (.ok (o.storedToken, (o.probe o.storedToken).1),
      [.probeCall o.storedToken]) ∧
    Event.reauth ∉ (mainModel o).2 := by
  have hlt : ¬(45 - o.storedAge < 7) := by omega
  constructor
  · simp [mainModel, hprobe, hlt]
  · simp [mainModel, hprobe, hlt]

theorem fresh_credential_no_reauth_witness :
    mainModel cexOracleC9 = (.ok ("OLD", 7), [.probeCall "OLD"]) ∧
    Event.reauth ∉ (mainModel cexOracleC9).2 := by
  have h := fresh_credential_no_reauth cexOracleC9 (by decide) (by decide)
  exact ⟨h.1, h.2⟩

/-- C7: `WriteOAuthTokenToFile` writes to the sibling temporary path and
renames it over the final path; the temporary never survives, the call
succeeds exactly when both steps do, and on any failure a subsequent load
sees exactly what it saw before — no partially written credential file. -/
theorem WriteOAuthTokenToFile_atomic (token : String) (now : Nat) (fs : FS)
    (writeOk renameOk : Bool) :
    (WriteOAuthTokenToFile token now fs writeOk renameOk).1.tmp = none ∧
    (WriteOAuthTokenToFile token now fs writeOk renameOk).2
        = (writeOk && renameOk) ∧
    ((WriteOAuthTokenToFile token now fs writeOk renameOk).2 = false →
      ∀ t, GetOAuthTokenFromFile
          (WriteOAuthTokenToFile token now fs writeOk renameOk).1 t
        = GetOAuthTokenFromFile fs t) := by
  cases fs with
  | mk final tmp =>
    cases writeOk <;> cases renameOk <;>
      simp [WriteOAuthTokenToFile, GetOAuthTokenFromFile]

theorem WriteOAuthTokenToFile_atomic_witness :
    (WriteOAuthTokenToFile "T" 100 ⟨some ⟨"OLD", 10⟩, none⟩ true false).1.tmp
        = none ∧
    GetOAuthTokenFromFile
        (WriteOAuthTokenToFile "T" 100 ⟨some ⟨"OLD", 10⟩, none⟩ true false).1 34
      = GetOAuthTokenFromFile ⟨some ⟨"OLD", 10⟩, none⟩ 34 := by
  have h := WriteOAuthTokenToFile_atomic "T" 100 ⟨some ⟨"OLD", 10⟩, none⟩
    true false
  exact ⟨h.1, h.2.2 (by decide) 34⟩

/-- C8: a successful save followed by a load returns the identical token with
age 0 at the moment of the save, age 7 when loaded 7 days (168 hours) later,
and in general age d after d further days: the age comes from the stored
file's modification time in whole days and the content round-trips without
transformation. -/
theorem save_load_roundtrip (token : String) (now : Nat) (fs : FS) (d : Nat) :
    GetOAuthTokenFromFile (WriteOAuthTokenToFile token now fs true true).1 now
      = (token, 0) ∧
    GetOAuthTokenFromFile (WriteOAuthTokenToFile token now fs true true).1
        (now + 7 * 24) = (token, 7) ∧
    GetOAuthTokenFromFile (WriteOAuthTokenToFile token now fs true true).1
        (now + 24 * d) = (token, d) := by
  refine ⟨?_, ?_, ?_⟩
  · simp [WriteOAuthTokenToFile, GetOAuthTokenFromFile]
  · simp [WriteOAuthTokenToFile, GetOAuthTokenFromFile, Nat.add_sub_cancel_left]
  · simp [WriteOAuthTokenToFile, GetOAuthTokenFromFile, Nat.add_sub_cancel_left,
      Nat.mul_div_cancel_left]

/-- C10: whenever the Hold command executes (`--hold` set and no
`--percent`), the controller issues the self-consumption mode-set call first,
then reads the charge, then sets the backup reserve to that charge — three
device calls, one more than the read-then-set pair. -/
theorem hold_issues_three_calls (percent : Int) (sid : Int) (charge : Rat)
    (h : percent < 0) :
    runCommand true percent sid charge =
      [.setSelfConsumption sid, .getBatteryCharge sid,
       .setBackupPercent sid charge] := by
  have h0 : ¬(0 ≤ percent) := by omega
  simp [runCommand, h0]

theorem hold_issues_three_calls_witness :
    runCommand true (-1) 3 50 =
      [.setSelfConsumption 3, .getBatteryCharge 3, .setBackupPercent 3 50] :=
  hold_issues_three_calls (-1) 3 50 (by decide)

end Powerwall
